import Mathlib

/-!
# Device/context registry and transport event dispatcher

A shallow embedding of `src/trans/trans.c`: the module-level statics
(`_devices`, `new_context`) become an explicit state record, every function
takes the state and returns the state it leaves, and the calls that leave the
module (plugin callbacks, protocol-core operations, `DEBUG` lines) are recorded
in a trace, in program order. The SIGALRM handler and the mode setup of
`src/sample_agent.c` are embedded the same way, over the statics `CONTEXT_ID`
and `alarms`.
-/

namespace Antidote

/-! ## Data model -/

/-- The context identifier. The typedef of `ContextId` lives in a header that is
not among the sources; the code uses it as an unsigned integer (`991`, `0`,
`!context`, `++`), so a value is a natural number below `2 ^ w`, where the bit
width `w` is a parameter of every operation that increments one. -/
abbrev ContextId := Nat

/-- A transport plugin (`TransPlugin *`), identified by the object the pointer
designates. Its function pointers are external code: a call through one of
them is an `Event`. -/
structure TransPlugin where
  ident : Nat
deriving DecidableEq, Repr

/-- The `TransDevice` record of trans.c. -/
structure TransDevice where
  lladdr : String
  context : ContextId
  plugin : TransPlugin
deriving DecidableEq, Repr

/-- The protocol core's `Context` struct, as far as trans.c sees it: an object
handed back by `context_get`. -/
structure Context where
  id : ContextId
deriving DecidableEq, Repr

/-- Payload handed through to the protocol core untouched. -/
abbrev PhdAssociationInformation := Nat

/-- Payload handed through to the protocol core untouched. -/
abbrev ConfigReport := Nat

/-- Payload handed through to the protocol core untouched. -/
abbrev ScanReportInfoFixed := Nat

/-- Payload handed through to the protocol core untouched. -/
abbrev ScanReportInfoVar := Nat

/-- The statics of trans.c that the registry operations read and write:
`_devices` (the list behind `devices()`) and `new_context`. -/
structure TransState where
  devices : List TransDevice
  new_context : ContextId
deriving DecidableEq, Repr

/-- The statics as initialised: no device, `new_context = 991` (the constant
converted to the `w`-bit type). -/
def TransState.init (w : Nat) : TransState :=
  { devices := [], new_context := 991 % 2 ^ w }

/-- A call that leaves the module, or a `DEBUG` line. -/
inductive Event where
  | debug (msg : String)
  | conn_cb (plugin : TransPlugin) (context : ContextId) (lladdr : String)
  | disconn_cb (plugin : TransPlugin) (context : ContextId) (lladdr : String)
  | force_disconnect (plugin : TransPlugin) (lladdr : String)
  | communication_transport_connect_indication (context : ContextId)
  | communication_transport_disconnect_indication (context : ContextId)
  | context_get (context : ContextId)
  | association_accept_data_protocol_20601_in (ctx : Context)
      (assoc_info : PhdAssociationInformation)
  | configuring_perform_configuration_in (ctx : Context) (config : ConfigReport)
  | mds_event_report_dynamic_data_update_fixed (ctx : Context)
      (report : ScanReportInfoFixed)
  | mds_event_report_dynamic_data_update_var (ctx : Context)
      (report : ScanReportInfoVar)
  | del_scanreportinfovar (report : ScanReportInfoVar)
deriving DecidableEq, Repr

/-- The event is a dynamic-data update of the protocol core. -/
def Event.isDataUpdate : Event → Bool
  | .mds_event_report_dynamic_data_update_fixed _ _ => true
  | .mds_event_report_dynamic_data_update_var _ _ => true
  | _ => false

/-- The event is a call through a plugin function pointer. -/
def Event.isPluginCall : Event → Bool
  | .conn_cb _ _ _ => true
  | .disconn_cb _ _ _ => true
  | .force_disconnect _ _ => true
  | _ => false

/-- The event is a `DEBUG` line. -/
def Event.isDebug : Event → Bool
  | .debug _ => true
  | _ => false

/-- The event is a transport indication to the protocol core. -/
def Event.isIndication : Event → Bool
  | .communication_transport_connect_indication _ => true
  | .communication_transport_disconnect_indication _ => true
  | _ => false

/-- The calls of a trace that the ordering contracts are about: the calls
through a plugin function pointer and the transport indications, in the order
they were made. -/
def callOrder (trace : List Event) : List Event :=
  trace.filter (fun e => e.isPluginCall || e.isIndication)

/-- What a dispatcher entry point leaves behind: its return value, the statics
and the trace of the calls it made. -/
structure Outcome (α : Type) where
  ret : α
  state : TransState
  trace : List Event
deriving DecidableEq, Repr

/-- A run-time fault that ends the process: a read through a NULL pointer, or
through a pointer that designates no object. -/
inductive Fault where
  | null_dereference
  | invalid_dereference
deriving DecidableEq, Repr

/-! ## The linked list helpers -/

/-- Modelled from the spec: `llist_search_first` of `src/util/linkedlist.h`,
which is not among the sources; the spec has the lookups "scan/compare" the
table. It scans the list from its first node and returns the first element
for which the condition, called with `(arg, element)`, answers non-zero, or
NULL (`none`) when there is none. -/
def llist_search_first {α β : Type} (list : List α) (arg : β) (cond : β → α → Bool) :
    Option α :=
  list.find? (cond arg)

/-- Modelled from the spec: `llist_add` of `src/util/linkedlist.h`, which is not
among the sources; the spec has the registry append-only. It links the element
in after the last node. -/
def llist_add {α : Type} (list : List α) (element : α) : List α :=
  list ++ [element]

/-- Modelled from the spec: the scan of `llist_search_first` again, for a
condition whose call can fault. The nodes are visited in the same order and the
first element the condition accepts is returned; a fault in a call of the
condition ends the scan there, with the fault. -/
def llist_search_first_faulting {α β : Type} (arg : β) (cond : β → α → Except Fault Bool) :
    List α → Except Fault (Option α)
  | [] => .ok none
  | element :: rest =>
    match cond arg element with
    | .error fault => .error fault
    | .ok true => .ok (some element)
    | .ok false => llist_search_first_faulting arg cond rest

/-! ## The registry -/

/-- The predicate `search_by_addr`: `strcmp(element->lladdr, lladdr) == 0`. -/
def search_by_addr (parg : String) (pelement : TransDevice) : Bool :=
  decide (pelement.lladdr = parg)

/-- The lookup `get_device_by_addr`. -/
def get_device_by_addr (s : TransState) (lladdr : String) : Option TransDevice :=
  llist_search_first s.devices lladdr search_by_addr

/-- The predicate `search_by_context`. Its local is declared
`TransDevice *element = element;`: it is initialised from itself, never from
`pelement`, so its value is indeterminate. The first argument `element` is what
that pointer designates: `none` when it designates no object, and then the read
`element->context` faults; otherwise the object whose `context` is compared. The
list element `pelement` (here `_pelement`) is not read. -/
def search_by_context (element : Option TransDevice) (parg : ContextId)
    (_pelement : TransDevice) : Except Fault Bool :=
  let context := parg
  match element with
  | none => .error .invalid_dereference
  | some e => .ok (decide (e.context = context))

/-- The lookup `get_device_by_context`; `element` as in `search_by_context`,
the same in every call the scan makes (nothing writes the local between two
calls). A fault in the predicate ends the lookup. -/
def get_device_by_context (element : Option TransDevice) (s : TransState) (id : ContextId) :
    Except Fault (Option TransDevice) :=
  llist_search_first_faulting id (search_by_context element) s.devices

/-- The operation `trans_context_get`: the id of a known address; for an unknown
one and a non-null plugin a new entry with `new_context++`; otherwise 0. -/
def trans_context_get (w : Nat) (s : TransState) (lladdr : String)
    (plugin : Option TransPlugin) : ContextId × TransState :=
  match get_device_by_addr s lladdr with
  | some dev => (dev.context, s)
  | none =>
    match plugin with
    | some p =>
      let dev : TransDevice :=
        { lladdr := lladdr, context := s.new_context, plugin := p }
      (dev.context,
        { devices := llist_add s.devices dev, new_context := (s.new_context + 1) % 2 ^ w })
    | none => (0, s)

/-! ## The dispatcher -/

/-- The entry point `trans_connected`. `context_get` is the protocol core's
lookup of the context struct as it answers when the entry point asks (NULL is
`none`). -/
def trans_connected (w : Nat) (context_get : ContextId → Option Context) (s : TransState)
    (plugin : TransPlugin) (lladdr : String) (assoc_info : PhdAssociationInformation)
    (config : ConfigReport) : Outcome Int :=
  let r := trans_context_get w s lladdr (some plugin)
  let context := r.1
  let head : List Event :=
    [.conn_cb plugin context lladdr,
     .communication_transport_connect_indication context,
     .context_get context]
  match context_get context with
  | none =>
    { ret := 0, state := r.2,
      trace := head ++ [.debug "Transcoding: context struct not found"] }
  | some ctx =>
    { ret := 1, state := r.2,
      trace := head ++
        [.association_accept_data_protocol_20601_in ctx assoc_info,
         .configuring_perform_configuration_in ctx config] }

/-- The entry point `trans_event_report_fixed`. -/
def trans_event_report_fixed (w : Nat) (context_get : ContextId → Option Context)
    (s : TransState) (_plugin : TransPlugin) (lladdr : String)
    (report : ScanReportInfoFixed) : Outcome Int :=
  let r := trans_context_get w s lladdr none
  let context := r.1
  let log : List Event :=
    if context = 0 then
      [.debug ("Transcoded " ++ lladdr ++ " no context for evt report")]
    else []
  match context_get context with
  | none =>
    { ret := 0, state := r.2,
      trace := log ++
        [.context_get context, .debug "Transcoding: context struct not found"] }
  | some ctx =>
    { ret := 1, state := r.2,
      trace := log ++
        [.context_get context, .mds_event_report_dynamic_data_update_fixed ctx report] }

/-- The entry point `trans_event_report_var`. -/
def trans_event_report_var (w : Nat) (context_get : ContextId → Option Context)
    (s : TransState) (_plugin : TransPlugin) (lladdr : String)
    (report : ScanReportInfoVar) : Outcome Int :=
  let r := trans_context_get w s lladdr none
  let context := r.1
  let log : List Event :=
    if context = 0 then
      [.debug ("Transcoded " ++ lladdr ++ " no context for evt report (var)")]
    else []
  match context_get context with
  | none =>
    { ret := 0, state := r.2,
      trace := log ++
        [.context_get context, .debug "Transcoding: context struct not found"] }
  | some ctx =>
    { ret := 1, state := r.2,
      trace := log ++
        [.context_get context, .mds_event_report_dynamic_data_update_var ctx report,
         .del_scanreportinfovar report] }

/-- The entry point `trans_disconnected`. -/
def trans_disconnected (w : Nat) (s : TransState) (plugin : TransPlugin) (lladdr : String) :
    Outcome Int :=
  let r := trans_context_get w s lladdr none
  let context := r.1
  let log : List Event :=
    if context = 0 then
      [.debug ("Transcoded " ++ lladdr ++ " no context for disconnection")]
    else []
  { ret := 1, state := r.2,
    trace := log ++
      [.communication_transport_disconnect_indication context,
       .disconn_cb plugin context lladdr] }

/-- The entry point `trans_force_disconnect`. A fault in the lookup ends the
call before anything is logged or called. After the `DEBUG` line of the `!dev`
branch the function goes on to `dev->plugin`, which for a NULL `dev` is a null
dereference: the trace ends there and the result is the fault. -/
def trans_force_disconnect (element : Option TransDevice) (s : TransState) (id : ContextId) :
    Outcome (Except Fault Unit) :=
  match get_device_by_context element s id with
  | .error fault =>
    { ret := .error fault, state := s, trace := [] }
  | .ok none =>
    { ret := .error .null_dereference, state := s,
      trace := [.debug "Transcoded dev: unknown context for forced disconnection"] }
  | .ok (some dev) =>
    { ret := .ok (), state := s,
      trace :=
        [.force_disconnect dev.plugin dev.lladdr,
         .communication_transport_disconnect_indication id] }

/-! ## Runs of the registry -/

/-- The statics after a sequence of `trans_context_get` calls, each given by
its two arguments, made from the state `s`. -/
def runFrom (w : Nat) (s : TransState) : List (String × Option TransPlugin) → TransState
  | [] => s
  | c :: cs => runFrom w (trans_context_get w s c.1 c.2).2 cs

/-- The statics after a sequence of `trans_context_get` calls made from the
initial state. -/
def run (w : Nat) (calls : List (String × Option TransPlugin)) : TransState :=
  runFrom w (TransState.init w) calls

/-- How many calls of the sequence, made from `s`, met an address without an
entry and had a non-null plugin, that is, how many allocated an id. -/
def allocations (w : Nat) (s : TransState) : List (String × Option TransPlugin) → Nat
  | [] => 0
  | c :: cs =>
    (if get_device_by_addr s c.1 = none ∧ c.2.isSome then 1 else 0)
      + allocations w (trans_context_get w s c.1 c.2).2 cs

/-- The shape of every registry reached from the initial one: the counter is
991 plus the number of entries, the `i`-th entry carries `991 + i` (both modulo
`2 ^ w`), and no two entries share an address. -/
def Inv (w : Nat) (s : TransState) : Prop :=
  s.new_context = (991 + s.devices.length) % 2 ^ w ∧
  s.devices.map (fun d => d.context) =
    (List.range s.devices.length).map (fun i => (991 + i) % 2 ^ w) ∧
  (s.devices.map (fun d => d.lladdr)).Nodup

/-- The address made of `i` letters; two of them are equal only for equal `i`. -/
def addrOf (i : Nat) : String :=
  String.mk (List.replicate i 'x')

/-- The `n` calls `trans_context_get(addrOf start, p)`, ...,
`trans_context_get(addrOf (start + n - 1), p)`, in this order. -/
def freshCalls (p : TransPlugin) : Nat → Nat → List (String × Option TransPlugin)
  | _, 0 => []
  | start, n + 1 => (addrOf start, some p) :: freshCalls p (start + 1) n

/-- The event is one of the two calls that push a connected device into the
association pipeline of the protocol core. -/
def Event.isPipeline : Event → Bool
  | .association_accept_data_protocol_20601_in _ _ => true
  | .configuring_perform_configuration_in _ _ => true
  | _ => false

/-! ## The sample agent -/

/-- The least value of a C `int`, 32 bits wide on the platforms the agent is
built for. -/
def INT_MIN : Int := -(2 ^ 31)

/-- The greatest value of a C `int`. -/
def INT_MAX : Int := 2 ^ 31 - 1

/-- The value a 32-bit two's complement `int` holds after an arithmetic
instruction whose exact result is `x`: `x` itself inside the range, and `x`
shifted by a multiple of `2 ^ 32` into the range outside it (the decrement of
`INT_MIN`, which the C standard leaves undefined, gives `INT_MAX`). -/
def int_wrap (x : Int) : Int :=
  (x + 2 ^ 31) % 2 ^ 32 - 2 ^ 31

/-- A call that leaves sample_agent.c from the SIGALRM handler or from the
mode setup. -/
inductive AgentCall where
  | agent_send_data (id : ContextId)
  | agent_disassociate (id : ContextId)
  | agent_disconnect (id : ContextId)
  | alarm (seconds : Nat)
  | plugin_network_fifo_setup (id : ContextId)
  | plugin_network_tcp_agent_setup (port : Int)
deriving DecidableEq, Repr

/-- The call is a protocol-core operation of the agent (`agent_send_data`,
`agent_disassociate`, `agent_disconnect`). -/
def AgentCall.isAgentOperation : AgentCall → Bool
  | .agent_send_data _ => true
  | .agent_disassociate _ => true
  | .agent_disconnect _ => true
  | _ => false

/-- The statics of sample_agent.c that the handler and the mode setup read and
write: `CONTEXT_ID` and `alarms`. -/
structure AgentState where
  CONTEXT_ID : ContextId
  alarms : Int
deriving DecidableEq, Repr

/-- The statics as initialised: `CONTEXT_ID = 0`, `alarms = 4`. -/
def AgentState.init : AgentState :=
  { CONTEXT_ID := 0, alarms := 4 }

/-- The SIGALRM handler `sigalrm`: the calls it makes, in order, and the
statics it leaves (`--alarms` last, in every branch). -/
def sigalrm (st : AgentState) : List AgentCall × AgentState :=
  let calls : List AgentCall :=
    if st.alarms > 1 then
      [.agent_send_data st.CONTEXT_ID, .alarm 3]
    else if st.alarms = 1 then
      [.agent_disassociate st.CONTEXT_ID, .alarm 3]
    else
      [.agent_disconnect st.CONTEXT_ID]
  (calls, { st with alarms := int_wrap (st.alarms - 1) })

/-- The listener `device_associated`: it arms the timer (the line it prints is
left out). -/
def device_associated : List AgentCall :=
  [.alarm 3]

/-- The mode setup `tcp_mode`: `CONTEXT_ID` becomes the port, 6024, converted to
the `w`-bit `ContextId`. -/
def tcp_mode (w : Nat) (st : AgentState) : List AgentCall × AgentState :=
  let port : Int := 6024
  ([.plugin_network_tcp_agent_setup port],
    { st with CONTEXT_ID := (port % 2 ^ w).toNat })

/-- The mode setup `fifo_mode`. -/
def fifo_mode (st : AgentState) : List AgentCall × AgentState :=
  ([.plugin_network_fifo_setup st.CONTEXT_ID], st)

/-- Whether the calls of a handler run armed the timer again. -/
def rearmed (calls : List AgentCall) : Bool :=
  calls.any (fun c => match c with
    | .alarm _ => true
    | _ => false)

/-- The run of the timer: the handler is called once per expiry, and again only
if the call before armed the timer. The result lists the calls of each tick;
`fuel` bounds the number of ticks followed. -/
def lifecycle : Nat → AgentState → List (List AgentCall)
  | 0, _ => []
  | fuel + 1, st =>
    (sigalrm st).1 ::
      (if rearmed (sigalrm st).1 then lifecycle fuel (sigalrm st).2 else [])

/-- The handler called `k` times in a row, whatever delivers the signal: all
calls made, in order, and the statics left. -/
def ticks : Nat → AgentState → List AgentCall × AgentState
  | 0, st => ([], st)
  | k + 1, st =>
    ((sigalrm st).1 ++ (ticks k (sigalrm st).2).1, (ticks k (sigalrm st).2).2)

/-! ## Lookup by address -/

theorem get_device_by_addr_eq_none_iff (s : TransState) (a : String) :
    get_device_by_addr s a = none ↔ ∀ d ∈ s.devices, d.lladdr ≠ a := by
  simp [get_device_by_addr, llist_search_first, search_by_addr]

theorem get_device_by_addr_some {s : TransState} {a : String} {d : TransDevice}
    (h : get_device_by_addr s a = some d) : d ∈ s.devices ∧ d.lladdr = a := by
  unfold get_device_by_addr llist_search_first at h
  refine ⟨List.mem_of_find?_eq_some h, ?_⟩
  have := List.find?_some h
  simpa [search_by_addr] using this

theorem trans_context_get_known {w : Nat} {s : TransState} {a : String} {d : TransDevice}
    (q : Option TransPlugin) (h : get_device_by_addr s a = some d) :
    trans_context_get w s a q = (d.context, s) := by
  simp [trans_context_get, h]

theorem trans_context_get_create {w : Nat} {s : TransState} {a : String}
    (p : TransPlugin) (h : get_device_by_addr s a = none) :
    trans_context_get w s a (some p) =
      (s.new_context,
        { devices := s.devices ++ [{ lladdr := a, context := s.new_context, plugin := p }],
          new_context := (s.new_context + 1) % 2 ^ w }) := by
  simp [trans_context_get, h, llist_add]

theorem trans_context_get_lookup {w : Nat} {s : TransState} {a : String}
    (h : get_device_by_addr s a = none) :
    trans_context_get w s a none = (0, s) := by
  simp [trans_context_get, h]

/-- A call with a NULL plugin never changes the registry. -/
theorem trans_context_get_null_state (w : Nat) (s : TransState) (a : String) :
    (trans_context_get w s a none).2 = s := by
  cases h : get_device_by_addr s a with
  | some d => rw [trans_context_get_known _ h]
  | none => rw [trans_context_get_lookup h]

/-- After a call with a non-null plugin the address has an entry, and that
entry carries the id the call returned. -/
theorem get_device_by_addr_after (w : Nat) (s : TransState) (a : String) (p : TransPlugin) :
    ∃ d, get_device_by_addr (trans_context_get w s a (some p)).2 a = some d ∧
      d.context = (trans_context_get w s a (some p)).1 ∧ d.lladdr = a := by
  cases h : get_device_by_addr s a with
  | some d =>
    rw [trans_context_get_known _ h]
    exact ⟨d, h, rfl, (get_device_by_addr_some h).2⟩
  | none =>
    rw [trans_context_get_create p h]
    refine ⟨{ lladdr := a, context := s.new_context, plugin := p }, ?_, rfl, rfl⟩
    unfold get_device_by_addr llist_search_first at h ⊢
    simp [List.find?_append, h, search_by_addr]

/-- An entry that a lookup by address finds is found by every later lookup. -/
theorem get_device_by_addr_stable (w : Nat) {s : TransState} {a : String} {d : TransDevice}
    (b : String) (q : Option TransPlugin) (h : get_device_by_addr s a = some d) :
    get_device_by_addr (trans_context_get w s b q).2 a = some d := by
  cases hb : get_device_by_addr s b with
  | some e => rw [trans_context_get_known _ hb]; exact h
  | none =>
    cases q with
    | none => rw [trans_context_get_lookup hb]; exact h
    | some p =>
      rw [trans_context_get_create p hb]
      unfold get_device_by_addr llist_search_first at h ⊢
      simp [List.find?_append, h]

theorem get_device_by_addr_runFrom (w : Nat) (calls : List (String × Option TransPlugin)) :
    ∀ {s : TransState} {a : String} {d : TransDevice},
      get_device_by_addr s a = some d → get_device_by_addr (runFrom w s calls) a = some d := by
  induction calls with
  | nil => intro s a d h; exact h
  | cons c cs ih =>
    intro s a d h
    exact ih (get_device_by_addr_stable w c.1 c.2 h)

/-! ## The allocation invariant -/

theorem Inv_init (w : Nat) : Inv w (TransState.init w) := by
  simp [Inv, TransState.init]

theorem Inv_trans_context_get (w : Nat) {s : TransState} (h : Inv w s) (a : String)
    (q : Option TransPlugin) : Inv w (trans_context_get w s a q).2 := by
  cases ha : get_device_by_addr s a with
  | some d => rw [trans_context_get_known _ ha]; exact h
  | none =>
    cases q with
    | none => rw [trans_context_get_lookup ha]; exact h
    | some p =>
      rw [trans_context_get_create p ha]
      obtain ⟨h1, h2, h3⟩ := h
      refine ⟨?_, ?_, ?_⟩
      · simp only [List.length_append, List.length_singleton]
        rw [h1, Nat.mod_add_mod, Nat.add_assoc]
      · simp only [List.length_append, List.length_singleton, List.map_append,
          List.map_cons, List.map_nil, List.range_succ]
        rw [h2, h1]
      · simp only [List.map_append, List.map_cons, List.map_nil]
        rw [List.nodup_append]
        refine ⟨h3, List.nodup_singleton _, ?_⟩
        intro x hx hx'
        rw [List.mem_singleton] at hx'
        subst hx'
        obtain ⟨d, hd, rfl⟩ := List.mem_map.1 hx
        exact (get_device_by_addr_eq_none_iff s _).1 ha d hd rfl

theorem Inv_runFrom (w : Nat) (calls : List (String × Option TransPlugin)) :
    ∀ {s : TransState}, Inv w s → Inv w (runFrom w s calls) := by
  induction calls with
  | nil => intro s h; exact h
  | cons c cs ih => intro s h; exact ih (Inv_trans_context_get w h c.1 c.2)

theorem Inv_run (w : Nat) (calls : List (String × Option TransPlugin)) :
    Inv w (run w calls) :=
  Inv_runFrom w calls (Inv_init w)

theorem runFrom_append (w : Nat) (cs ds : List (String × Option TransPlugin)) :
    ∀ s : TransState, runFrom w s (cs ++ ds) = runFrom w (runFrom w s cs) ds := by
  induction cs with
  | nil => intro s; rfl
  | cons c cs ih => intro s; exact ih _

/-- Every allocating call adds one entry, and no other call adds any. -/
theorem length_runFrom (w : Nat) (calls : List (String × Option TransPlugin)) :
    ∀ s : TransState,
      (runFrom w s calls).devices.length = s.devices.length + allocations w s calls := by
  induction calls with
  | nil => intro s; rfl
  | cons c cs ih =>
    intro s
    obtain ⟨a, q⟩ := c
    simp only [runFrom, allocations]
    rw [ih]
    cases ha : get_device_by_addr s a with
    | some d => rw [trans_context_get_known _ ha]; simp
    | none =>
      cases q with
      | none => rw [trans_context_get_lookup ha]; simp
      | some p => rw [trans_context_get_create p ha]; simp; omega

/-- The ids `991 + i` modulo `2 ^ w` of fewer than `2 ^ w + 1` entries differ. -/
theorem nodup_contexts_of_Inv {w : Nat} {s : TransState} (h : Inv w s)
    (hcap : s.devices.length ≤ 2 ^ w) : (s.devices.map (fun d => d.context)).Nodup := by
  rw [h.2.1]
  refine List.Nodup.map_on ?_ (List.nodup_range _)
  intro i hi j hj hij
  have hi' : i < 2 ^ w := lt_of_lt_of_le (List.mem_range.1 hi) hcap
  have hj' : j < 2 ^ w := lt_of_lt_of_le (List.mem_range.1 hj) hcap
  have hmod : i % 2 ^ w = j % 2 ^ w := Nat.ModEq.add_left_cancel' 991 hij
  rwa [Nat.mod_eq_of_lt hi', Nat.mod_eq_of_lt hj'] at hmod

/-! ## Runs over fresh addresses -/

theorem length_addrOf (i : Nat) : (addrOf i).length = i := by
  simp [addrOf, String.length]

/-- Calls with `n` addresses longer than every address in the registry all
allocate, and leave the addresses shorter than `start + n`. -/
theorem allocations_freshCalls (w : Nat) (p : TransPlugin) (n : Nat) :
    ∀ (start : Nat) (s : TransState), (∀ d ∈ s.devices, d.lladdr.length < start) →
      allocations w s (freshCalls p start n) = n ∧
      ∀ d ∈ (runFrom w s (freshCalls p start n)).devices, d.lladdr.length < start + n := by
  induction n with
  | zero => intro start s h; exact ⟨rfl, h⟩
  | succ n ih =>
    intro start s h
    have hnone : get_device_by_addr s (addrOf start) = none := by
      rw [get_device_by_addr_eq_none_iff]
      intro d hd heq
      have := h d hd
      rw [heq, length_addrOf] at this
      exact Nat.lt_irrefl _ this
    have hstep := trans_context_get_create (w := w) p hnone
    have hnext : ∀ d ∈ (trans_context_get w s (addrOf start) (some p)).2.devices,
        d.lladdr.length < start + 1 := by
      rw [hstep]
      intro d hd
      rcases List.mem_append.1 hd with hd | hd
      · exact Nat.lt_succ_of_lt (h d hd)
      · rw [List.mem_singleton] at hd
        subst hd
        simp [length_addrOf]
    obtain ⟨h1, h2⟩ := ih (start + 1) _ hnext
    refine ⟨?_, ?_⟩
    · simp only [freshCalls, allocations, hnone, Option.isSome_some, and_self, if_true]
      rw [h1, Nat.add_comm]
    · intro d hd
      have hd' : d ∈ (runFrom w (trans_context_get w s (addrOf start) (some p)).2
          (freshCalls p (start + 1) n)).devices := hd
      have := h2 d hd'
      omega

/-- The id handed to an address without an entry, in a registry reached from
the initial one: 991 plus the number of allocations so far, modulo `2 ^ w`. -/
theorem trans_context_get_fresh_id (w : Nat) (calls : List (String × Option TransPlugin))
    (a : String) (p : TransPlugin) (hnew : get_device_by_addr (run w calls) a = none) :
    (trans_context_get w (run w calls) a (some p)).1 =
      (991 + allocations w (TransState.init w) calls) % 2 ^ w := by
  rw [trans_context_get_create p hnew]
  have hlen := length_runFrom w calls (TransState.init w)
  have hinv := (Inv_run w calls).1
  show (run w calls).new_context = _
  rw [hinv]
  unfold run
  rw [hlen]
  show (991 + (0 + _)) % 2 ^ w = _
  rw [Nat.zero_add]

/-! ## Resolution -/

/-- C1, idempotent resolution: whatever the registry holds, once
`trans_context_get(a, p)` with a non-null plugin `p` has returned an id, the
call `trans_context_get(a, q)` that follows returns the same id for every
plugin argument `q`, NULL included, and leaves the device list and the
allocation counter as the first call left them. -/
theorem trans_context_get_idempotent (w : Nat) (s : TransState) (a : String)
    (p : TransPlugin) (q : Option TransPlugin) :
    trans_context_get w (trans_context_get w s a (some p)).2 a q =
      ((trans_context_get w s a (some p)).1, (trans_context_get w s a (some p)).2) := by
  obtain ⟨d, hd, hc, _⟩ := get_device_by_addr_after w s a p
  rw [trans_context_get_known q hd, hc]

/-- C4, pure lookup: for an address that no device entry carries,
`trans_context_get(a, NULL)` returns the sentinel 0 and leaves the device list
and the allocation counter exactly as they were. -/
theorem trans_context_get_pure_lookup (w : Nat) (s : TransState) (a : String)
    (h : ∀ d ∈ s.devices, d.lladdr ≠ a) :
    (trans_context_get w s a none).1 = 0 ∧
      (trans_context_get w s a none).2.devices = s.devices ∧
      (trans_context_get w s a none).2.new_context = s.new_context := by
  rw [trans_context_get_lookup ((get_device_by_addr_eq_none_iff s a).2 h)]
  exact ⟨rfl, rfl, rfl⟩

/-- C4 at a concrete registry: one device at "A", a lookup of "B". -/
theorem trans_context_get_pure_lookup_witness :
    (∀ d ∈ (TransState.mk [⟨"A", 991, ⟨1⟩⟩] 992).devices, d.lladdr ≠ "B") ∧
    (trans_context_get 64 (TransState.mk [⟨"A", 991, ⟨1⟩⟩] 992) "B" none).1 = 0 ∧
      (trans_context_get 64 (TransState.mk [⟨"A", 991, ⟨1⟩⟩] 992) "B" none).2.devices =
        (TransState.mk [⟨"A", 991, ⟨1⟩⟩] 992).devices ∧
      (trans_context_get 64 (TransState.mk [⟨"A", 991, ⟨1⟩⟩] 992) "B" none).2.new_context =
        (TransState.mk [⟨"A", 991, ⟨1⟩⟩] 992).new_context :=
  ⟨by decide, trans_context_get_pure_lookup 64 _ "B" (by decide)⟩

/-! ## Uniqueness and allocation order -/

/-- C2, uniqueness: start from the empty registry and make any sequence of
`trans_context_get` calls. In the registry reached no two entries share an
address and no two share a context id, and resolving two distinct addresses `a`
and `b` there with a non-null plugin returns two different ids. The ids are
values of the `w`-bit `ContextId`, of which there are `2 ^ w`: the statements
about ids are for device lists of at most `2 ^ w` entries, beyond which no
assignment of ids is unique. Every entry is a live object of its own from
`malloc`, so with an id type as wide as a pointer no process holds a longer
list. -/
theorem context_ids_unique (w : Nat) (calls : List (String × Option TransPlugin))
    (a b : String) (p : TransPlugin) (hab : a ≠ b) :
    ((run w calls).devices.map (fun d => d.lladdr)).Nodup ∧
    ((run w calls).devices.length ≤ 2 ^ w →
      ((run w calls).devices.map (fun d => d.context)).Nodup) ∧
    ((run w (calls ++ [(a, some p), (b, some p)])).devices.length ≤ 2 ^ w →
      (trans_context_get w (run w calls) a (some p)).1 ≠
        (trans_context_get w (trans_context_get w (run w calls) a (some p)).2 b
          (some p)).1) := by
  refine ⟨(Inv_run w calls).2.2, nodup_contexts_of_Inv (Inv_run w calls), fun hcap => ?_⟩
  have hrun : run w (calls ++ [(a, some p), (b, some p)]) =
      (trans_context_get w (trans_context_get w (run w calls) a (some p)).2 b (some p)).2 := by
    unfold run
    rw [runFrom_append]
    rfl
  have hnd := nodup_contexts_of_Inv (Inv_run w (calls ++ [(a, some p), (b, some p)])) hcap
  obtain ⟨da, hda, hca, hla⟩ := get_device_by_addr_after w (run w calls) a p
  obtain ⟨db, hdb, hcb, hlb⟩ :=
    get_device_by_addr_after w (trans_context_get w (run w calls) a (some p)).2 b p
  have hda2 := get_device_by_addr_stable w b (some p) hda
  rw [← hrun] at hda2 hdb
  intro heq
  have hctx : da.context = db.context := by rw [hca, hcb, heq]
  have hsame := List.inj_on_of_nodup_map hnd (get_device_by_addr_some hda2).1
    (get_device_by_addr_some hdb).1 hctx
  exact hab (by rw [← hla, ← hlb, hsame])

/-- C2 at a concrete run: "A" registered, "B" looked up, then "A" and "C"
resolved, with 64-bit ids: the ids are 991 and 992. -/
theorem context_ids_unique_witness :
    ("A" : String) ≠ "C" ∧
    (run 64 ([("A", some ⟨1⟩), ("B", none)] ++
      [("A", some ⟨2⟩), ("C", some ⟨2⟩)])).devices.length ≤ 2 ^ 64 ∧
    (trans_context_get 64 (run 64 [("A", some ⟨1⟩), ("B", none)]) "A" (some ⟨2⟩)).1 ≠
        (trans_context_get 64
          (trans_context_get 64 (run 64 [("A", some ⟨1⟩), ("B", none)]) "A" (some ⟨2⟩)).2
          "C" (some ⟨2⟩)).1 ∧
    ((run 64 [("A", some ⟨1⟩), ("B", none)]).devices.map (fun d => d.lladdr)).Nodup ∧
    ((run 64 [("A", some ⟨1⟩), ("B", none)]).devices.map (fun d => d.context)).Nodup :=
  ⟨by decide, by decide,
    (context_ids_unique 64 [("A", some ⟨1⟩), ("B", none)] "A" "C" ⟨2⟩ (by decide)).2.2
      (by decide),
    (context_ids_unique 64 [("A", some ⟨1⟩), ("B", none)] "A" "C" ⟨2⟩ (by decide)).1,
    (context_ids_unique 64 [("A", some ⟨1⟩), ("B", none)] "A" "C" ⟨2⟩ (by decide)).2.1
      (by decide)⟩

/-- C3, allocation order: start from the empty registry and make any sequence
of `trans_context_get` calls, whatever their addresses and plugin arguments
(known addresses and NULL plugins included). A call that then meets an address
without an entry, with a non-null plugin, is the `k`-th allocation for
`k - 1` the number of calls before it that allocated an id, and it returns
`991 + (k - 1)` as a value of the `w`-bit `ContextId`: the number itself
whenever the type holds it. The `k - 1` entries allocated before are live
objects from `malloc`, so with an id type as wide as a pointer no process gets
to a `k` whose `991 + (k - 1)` the type does not hold. No id in use elsewhere
is an input of the call. -/
theorem allocation_order (w : Nat) (calls : List (String × Option TransPlugin))
    (a : String) (p : TransPlugin) (hnew : ∀ d ∈ (run w calls).devices, d.lladdr ≠ a) :
    (trans_context_get w (run w calls) a (some p)).1 =
      (991 + allocations w (TransState.init w) calls) % 2 ^ w ∧
    (991 + allocations w (TransState.init w) calls < 2 ^ w →
      (trans_context_get w (run w calls) a (some p)).1 =
        991 + allocations w (TransState.init w) calls) := by
  have h := trans_context_get_fresh_id w calls a p ((get_device_by_addr_eq_none_iff _ _).2 hnew)
  refine ⟨h, fun hcap => ?_⟩
  rw [h, Nat.mod_eq_of_lt hcap]

/-- C3 at a concrete run: "A" registered, "B" looked up, "A" resolved again,
"C" registered; the new address "D" is the third allocation and gets 993. -/
theorem allocation_order_witness :
    (∀ d ∈ (run 64 [("A", some ⟨1⟩), ("B", none), ("A", some ⟨2⟩), ("C", some ⟨2⟩)]).devices,
      d.lladdr ≠ "D") ∧
    991 + allocations 64 (TransState.init 64)
      [("A", some ⟨1⟩), ("B", none), ("A", some ⟨2⟩), ("C", some ⟨2⟩)] < 2 ^ 64 ∧
    (trans_context_get 64
      (run 64 [("A", some ⟨1⟩), ("B", none), ("A", some ⟨2⟩), ("C", some ⟨2⟩)])
      "D" (some ⟨1⟩)).1 =
      991 + allocations 64 (TransState.init 64)
        [("A", some ⟨1⟩), ("B", none), ("A", some ⟨2⟩), ("C", some ⟨2⟩)] ∧
    allocations 64 (TransState.init 64)
      [("A", some ⟨1⟩), ("B", none), ("A", some ⟨2⟩), ("C", some ⟨2⟩)] = 2 :=
  ⟨by decide, by decide,
    (allocation_order 64 [("A", some ⟨1⟩), ("B", none), ("A", some ⟨2⟩), ("C", some ⟨2⟩)]
      "D" ⟨1⟩ (by decide)).2 (by decide),
    by decide⟩

/-! ## Lookup by context -/

/-- The scan with a condition that cannot fault is `llist_search_first`. -/
theorem llist_search_first_faulting_ok {α β : Type} (arg : β) (cond : β → α → Bool)
    (list : List α) :
    llist_search_first_faulting arg (fun a e => .ok (cond a e)) list =
      .ok (llist_search_first list arg cond) := by
  induction list with
  | nil => rfl
  | cons e es ih =>
    unfold llist_search_first_faulting llist_search_first
    cases h : cond arg e with
    | true => simp [h]
    | false =>
      simp only [h, List.find?_cons_of_neg, Bool.false_eq_true, not_false_eq_true]
      exact ih

/-- What `get_device_by_context` computes: the condition never looks at the
list element, so on a list with a first node the scan faults there, stops there
or stops nowhere. -/
theorem get_device_by_context_eq (element : Option TransDevice) (s : TransState)
    (id : ContextId) :
    get_device_by_context element s id =
      match s.devices, element with
      | [], _ => .ok none
      | _ :: _, none => .error .invalid_dereference
      | d :: _, some e => if e.context = id then .ok (some d) else .ok none := by
  unfold get_device_by_context
  cases element with
  | none =>
    cases s.devices with
    | nil => rfl
    | cons d ds => rfl
  | some e =>
    by_cases h : e.context = id
    · cases s.devices with
      | nil => rfl
      | cons d ds => simp [llist_search_first_faulting, search_by_context, h]
    · have hscan : ∀ l : List TransDevice,
          llist_search_first_faulting id (search_by_context (some e)) l = .ok none := by
        intro l
        induction l with
        | nil => rfl
        | cons d ds ih => simp [llist_search_first_faulting, search_by_context, h, ih]
      rw [hscan]
      cases s.devices with
      | nil => rfl
      | cons d ds => simp [h]

/-- C5, at the registry that holds "A" with id 991 and "B" with id 992 (both
created by `trans_context_get`): whatever the uninitialised local of
`search_by_context` is, a pointer to no object included,
`get_device_by_context(992)` never returns the entry of "B", which is in the
list with context 992; and the answer of `search_by_context` is the same for
every list element it is given. -/
theorem get_device_by_context_misses (element : Option TransDevice) :
    (⟨"B", 992, ⟨1⟩⟩ : TransDevice) ∈ (run 64 [("A", some ⟨1⟩), ("B", some ⟨1⟩)]).devices ∧
    get_device_by_context element (run 64 [("A", some ⟨1⟩), ("B", some ⟨1⟩)]) 992 ≠
      .ok (some ⟨"B", 992, ⟨1⟩⟩) ∧
    ∀ (parg : ContextId) (e1 e2 : TransDevice),
      search_by_context element parg e1 = search_by_context element parg e2 := by
  have hrun : run 64 [("A", some ⟨1⟩), ("B", some ⟨1⟩)] =
      ⟨[⟨"A", 991, ⟨1⟩⟩, ⟨"B", 992, ⟨1⟩⟩], 993⟩ := by decide
  rw [get_device_by_context_eq, hrun]
  refine ⟨by decide, ?_, fun _ _ _ => rfl⟩
  cases element with
  | none => exact fun h => Except.noConfusion h
  | some e =>
    show (if e.context = 992 then
        (Except.ok (some ⟨"A", 991, ⟨1⟩⟩) : Except Fault (Option TransDevice))
      else .ok none) ≠ _
    by_cases h : e.context = 992
    · rw [if_pos h]
      intro h'
      have h2 : (⟨"A", 991, ⟨1⟩⟩ : TransDevice) = ⟨"B", 992, ⟨1⟩⟩ :=
        Option.some.inj (Except.ok.inj h')
      exact absurd h2 (by decide)
    · rw [if_neg h]
      intro h'
      exact Option.noConfusion (Except.ok.inj h')

/-! ## Forced disconnection -/

/-- C6, at the empty registry: `trans_force_disconnect(id)` finds no device
(the predicate is never called, so the lookup returns NULL whatever its
uninitialised local is), writes its `DEBUG` line and then dereferences the NULL
lookup result; it does not return after the line. -/
theorem trans_force_disconnect_unknown (element : Option TransDevice) (id : ContextId) :
    get_device_by_context element (TransState.init 64) id = .ok none ∧
    (trans_force_disconnect element (TransState.init 64) id).ret =
      .error .null_dereference ∧
    (trans_force_disconnect element (TransState.init 64) id).trace =
      [.debug "Transcoded dev: unknown context for forced disconnection"] := by
  have h : get_device_by_context element (TransState.init 64) id = .ok none := rfl
  refine ⟨h, ?_, ?_⟩ <;> simp [trans_force_disconnect, h]

/-! ## Connection and disconnection -/

theorem trans_disconnected_state (w : Nat) (s : TransState) (P : TransPlugin) (X : String) :
    (trans_disconnected w s P X).state = s :=
  trans_context_get_null_state w s X

theorem trans_force_disconnect_state (element : Option TransDevice) (s : TransState)
    (id : ContextId) : (trans_force_disconnect element s id).state = s := by
  unfold trans_force_disconnect
  cases get_device_by_context element s id with
  | error fault => rfl
  | ok dev => cases dev <;> rfl

theorem trans_connected_none {w : Nat} {context_get : ContextId → Option Context}
    {s : TransState} {P : TransPlugin} {X : String}
    (assoc_info : PhdAssociationInformation) (config : ConfigReport)
    (h : context_get (trans_context_get w s X (some P)).1 = none) :
    trans_connected w context_get s P X assoc_info config =
      { ret := 0, state := (trans_context_get w s X (some P)).2,
        trace :=
          [.conn_cb P (trans_context_get w s X (some P)).1 X,
           .communication_transport_connect_indication (trans_context_get w s X (some P)).1,
           .context_get (trans_context_get w s X (some P)).1,
           .debug "Transcoding: context struct not found"] } := by
  simp [trans_connected, h]

theorem trans_connected_some {w : Nat} {context_get : ContextId → Option Context}
    {s : TransState} {P : TransPlugin} {X : String} {ctx : Context}
    (assoc_info : PhdAssociationInformation) (config : ConfigReport)
    (h : context_get (trans_context_get w s X (some P)).1 = some ctx) :
    trans_connected w context_get s P X assoc_info config =
      { ret := 1, state := (trans_context_get w s X (some P)).2,
        trace :=
          [.conn_cb P (trans_context_get w s X (some P)).1 X,
           .communication_transport_connect_indication (trans_context_get w s X (some P)).1,
           .context_get (trans_context_get w s X (some P)).1,
           .association_accept_data_protocol_20601_in ctx assoc_info,
           .configuring_perform_configuration_in ctx config] } := by
  simp [trans_connected, h]

theorem trans_connected_state (w : Nat) (context_get : ContextId → Option Context)
    (s : TransState) (P : TransPlugin) (X : String) (assoc_info : PhdAssociationInformation)
    (config : ConfigReport) :
    (trans_connected w context_get s P X assoc_info config).state =
      (trans_context_get w s X (some P)).2 := by
  cases h : context_get (trans_context_get w s X (some P)).1 with
  | none => rw [trans_connected_none assoc_info config h]
  | some ctx => rw [trans_connected_some assoc_info config h]

theorem trans_connected_callOrder (w : Nat) (context_get : ContextId → Option Context)
    (s : TransState) (P : TransPlugin) (X : String) (assoc_info : PhdAssociationInformation)
    (config : ConfigReport) :
    callOrder (trans_connected w context_get s P X assoc_info config).trace =
      [.conn_cb P (trans_context_get w s X (some P)).1 X,
       .communication_transport_connect_indication (trans_context_get w s X (some P)).1] := by
  cases h : context_get (trans_context_get w s X (some P)).1 with
  | none =>
    rw [trans_connected_none assoc_info config h]
    simp [callOrder, Event.isPluginCall, Event.isIndication]
  | some ctx =>
    rw [trans_connected_some assoc_info config h]
    simp [callOrder, Event.isPluginCall, Event.isIndication]

theorem trans_disconnected_of_known (w : Nat) {s : TransState} {X : String} {d : TransDevice}
    (P : TransPlugin) (h : get_device_by_addr s X = some d) :
    (trans_disconnected w s P X).state = s ∧
    callOrder (trans_disconnected w s P X).trace =
      [.communication_transport_disconnect_indication d.context,
       .disconn_cb P d.context X] := by
  unfold trans_disconnected
  rw [trans_context_get_known _ h]
  refine ⟨rfl, ?_⟩
  by_cases h0 : d.context = 0 <;>
    simp [callOrder, Event.isPluginCall, Event.isIndication, h0]

/-- C7, connect ordering: for every registry, plugin `P` and address `X`,
`trans_connected(P, X, ...)` resolves or creates the context `c` of `X`
(`c` is what `trans_context_get(X, P)` returns and the registry is left as that
call leaves it), calls `P`'s connect callback with `(c, X)` first and the
transport-connect indication with `c` second, these being its only plugin call
and its only indication, and `c` is the id the registry then holds for `X`. -/
theorem trans_connected_order (w : Nat) (context_get : ContextId → Option Context)
    (s : TransState) (P : TransPlugin) (X : String) (assoc_info : PhdAssociationInformation)
    (config : ConfigReport) :
    callOrder (trans_connected w context_get s P X assoc_info config).trace =
      [.conn_cb P (trans_context_get w s X (some P)).1 X,
       .communication_transport_connect_indication (trans_context_get w s X (some P)).1] ∧
    (trans_connected w context_get s P X assoc_info config).trace.take 2 =
      [.conn_cb P (trans_context_get w s X (some P)).1 X,
       .communication_transport_connect_indication (trans_context_get w s X (some P)).1] ∧
    (trans_connected w context_get s P X assoc_info config).state =
      (trans_context_get w s X (some P)).2 ∧
    ∃ d, get_device_by_addr (trans_connected w context_get s P X assoc_info config).state X =
        some d ∧ d.context = (trans_context_get w s X (some P)).1 := by
  refine ⟨trans_connected_callOrder w context_get s P X assoc_info config, ?_,
    trans_connected_state w context_get s P X assoc_info config, ?_⟩
  · cases h : context_get (trans_context_get w s X (some P)).1 with
    | none => rw [trans_connected_none assoc_info config h]; rfl
    | some ctx => rw [trans_connected_some assoc_info config h]; rfl
  · rw [trans_connected_state]
    obtain ⟨d, hd, hc, _⟩ := get_device_by_addr_after w s X P
    exact ⟨d, hd, hc⟩

/-- C8, disconnect ordering: let `trans_connected(P, X, ...)` run in any
registry and call the id it resolved `c` (the id its connect callback got).
After any further sequence of `trans_context_get` calls, the only calls by
which the entry points change the registry, `trans_disconnected(P, X)` makes
the transport-disconnect indication with `c` first and `P`'s disconnect
callback with `(c, X)` second, and these are its only indication and its only
plugin call. -/
theorem trans_disconnected_order (w : Nat) (context_get : ContextId → Option Context)
    (s : TransState) (P : TransPlugin) (X : String) (assoc_info : PhdAssociationInformation)
    (config : ConfigReport) (calls : List (String × Option TransPlugin)) :
    Event.conn_cb P (trans_context_get w s X (some P)).1 X ∈
      (trans_connected w context_get s P X assoc_info config).trace ∧
    callOrder (trans_disconnected w
        (runFrom w (trans_connected w context_get s P X assoc_info config).state calls)
        P X).trace =
      [.communication_transport_disconnect_indication (trans_context_get w s X (some P)).1,
       .disconn_cb P (trans_context_get w s X (some P)).1 X] := by
  constructor
  · cases h : context_get (trans_context_get w s X (some P)).1 with
    | none => rw [trans_connected_none assoc_info config h]; simp
    | some ctx => rw [trans_connected_some assoc_info config h]; simp
  · rw [trans_connected_state]
    obtain ⟨d, hd, hc, _⟩ := get_device_by_addr_after w s X P
    have hrun := get_device_by_addr_runFrom w calls hd
    rw [(trans_disconnected_of_known w P hrun).2, hc]

/-- C9 (as amended), disconnection of an address without an entry: for every
plugin `P` and every address `X` that no device entry carries,
`trans_disconnected(P, X)` only looks `X` up: it creates no entry and leaves
the counter alone, logs that there is no context, hands the sentinel 0 to the
disconnect indication and then to `P`'s disconnect callback, returns 1, and a
later `trans_context_get(X, NULL)` still returns 0. -/
theorem trans_disconnected_unknown (w : Nat) (s : TransState) (P : TransPlugin) (X : String)
    (h : ∀ d ∈ s.devices, d.lladdr ≠ X) :
    trans_disconnected w s P X =
      { ret := 1, state := s,
        trace :=
          [.debug ("Transcoded " ++ X ++ " no context for disconnection"),
           .communication_transport_disconnect_indication 0,
           .disconn_cb P 0 X] } ∧
    trans_context_get w (trans_disconnected w s P X).state X none = (0, s) := by
  have hnone := (get_device_by_addr_eq_none_iff s X).2 h
  have hd : trans_disconnected w s P X =
      { ret := 1, state := s,
        trace :=
          [.debug ("Transcoded " ++ X ++ " no context for disconnection"),
           .communication_transport_disconnect_indication 0,
           .disconn_cb P 0 X] } := by
    unfold trans_disconnected
    rw [trans_context_get_lookup hnone]
    rfl
  refine ⟨hd, ?_⟩
  rw [hd]
  exact trans_context_get_lookup hnone

/-- C9 at a concrete registry: "A" has an entry, "X" is disconnected. -/
theorem trans_disconnected_unknown_witness :
    (∀ d ∈ (TransState.mk [⟨"A", 991, ⟨1⟩⟩] 992).devices, d.lladdr ≠ "X") ∧
    (trans_disconnected 64 (TransState.mk [⟨"A", 991, ⟨1⟩⟩] 992) ⟨2⟩ "X" =
      { ret := 1, state := TransState.mk [⟨"A", 991, ⟨1⟩⟩] 992,
        trace :=
          [.debug ("Transcoded " ++ "X" ++ " no context for disconnection"),
           .communication_transport_disconnect_indication 0,
           .disconn_cb ⟨2⟩ 0 "X"] } ∧
    trans_context_get 64
        (trans_disconnected 64 (TransState.mk [⟨"A", 991, ⟨1⟩⟩] 992) ⟨2⟩ "X").state "X" none =
      (0, TransState.mk [⟨"A", 991, ⟨1⟩⟩] 992)) :=
  ⟨by decide, trans_disconnected_unknown 64 _ ⟨2⟩ "X" (by decide)⟩

/-- C9 as stated fails: in the empty registry `trans_disconnected(P, "X")`
leaves the device list empty and the counter at 991, the indication and the
callback get the sentinel 0, and `trans_context_get("X", NULL)` afterwards
returns 0. -/
theorem trans_disconnected_creates_nothing :
    (trans_disconnected 64 (TransState.init 64) ⟨1⟩ "X").state.devices = [] ∧
    (trans_disconnected 64 (TransState.init 64) ⟨1⟩ "X").state.new_context = 991 ∧
    callOrder (trans_disconnected 64 (TransState.init 64) ⟨1⟩ "X").trace =
      [.communication_transport_disconnect_indication 0, .disconn_cb ⟨1⟩ 0 "X"] ∧
    (trans_context_get 64 (trans_disconnected 64 (TransState.init 64) ⟨1⟩ "X").state
      "X" none).1 = 0 := by
  decide

/-! ## Data reports -/

theorem trans_event_report_fixed_none {w : Nat} {context_get : ContextId → Option Context}
    {s : TransState} {X : String} (P : TransPlugin) (report : ScanReportInfoFixed)
    (h : context_get (trans_context_get w s X none).1 = none) :
    trans_event_report_fixed w context_get s P X report =
      { ret := 0, state := (trans_context_get w s X none).2,
        trace :=
          (if (trans_context_get w s X none).1 = 0 then
            [.debug ("Transcoded " ++ X ++ " no context for evt report")] else []) ++
          [.context_get (trans_context_get w s X none).1,
           .debug "Transcoding: context struct not found"] } := by
  simp [trans_event_report_fixed, h]

theorem trans_event_report_fixed_some {w : Nat} {context_get : ContextId → Option Context}
    {s : TransState} {X : String} {ctx : Context} (P : TransPlugin)
    (report : ScanReportInfoFixed)
    (h : context_get (trans_context_get w s X none).1 = some ctx) :
    trans_event_report_fixed w context_get s P X report =
      { ret := 1, state := (trans_context_get w s X none).2,
        trace :=
          (if (trans_context_get w s X none).1 = 0 then
            [.debug ("Transcoded " ++ X ++ " no context for evt report")] else []) ++
          [.context_get (trans_context_get w s X none).1,
           .mds_event_report_dynamic_data_update_fixed ctx report] } := by
  simp [trans_event_report_fixed, h]

theorem trans_event_report_var_none {w : Nat} {context_get : ContextId → Option Context}
    {s : TransState} {X : String} (P : TransPlugin) (report : ScanReportInfoVar)
    (h : context_get (trans_context_get w s X none).1 = none) :
    trans_event_report_var w context_get s P X report =
      { ret := 0, state := (trans_context_get w s X none).2,
        trace :=
          (if (trans_context_get w s X none).1 = 0 then
            [.debug ("Transcoded " ++ X ++ " no context for evt report (var)")] else []) ++
          [.context_get (trans_context_get w s X none).1,
           .debug "Transcoding: context struct not found"] } := by
  simp [trans_event_report_var, h]

theorem trans_event_report_var_some {w : Nat} {context_get : ContextId → Option Context}
    {s : TransState} {X : String} {ctx : Context} (P : TransPlugin)
    (report : ScanReportInfoVar)
    (h : context_get (trans_context_get w s X none).1 = some ctx) :
    trans_event_report_var w context_get s P X report =
      { ret := 1, state := (trans_context_get w s X none).2,
        trace :=
          (if (trans_context_get w s X none).1 = 0 then
            [.debug ("Transcoded " ++ X ++ " no context for evt report (var)")] else []) ++
          [.context_get (trans_context_get w s X none).1,
           .mds_event_report_dynamic_data_update_var ctx report,
           .del_scanreportinfovar report] } := by
  simp [trans_event_report_var, h]

/-- C10, data reports are lookup-only and log-but-continue: for every registry,
plugin, address `X` and report, `trans_event_report_fixed` and
`trans_event_report_var` leave the device list and the allocation counter as
they were and ask the protocol core for the context struct of the id they
resolved; when `X` has no entry that id is the sentinel 0 and the query is
still made. Each returns 1 exactly when the protocol core returns a context
struct, and then makes the dynamic-data update once, with that struct and the
report; otherwise it returns 0 and makes no update. -/
theorem trans_event_report_lookup_only (w : Nat) (context_get : ContextId → Option Context)
    (s : TransState) (P : TransPlugin) (X : String) (rf : ScanReportInfoFixed)
    (rv : ScanReportInfoVar) :
    ((trans_event_report_fixed w context_get s P X rf).state = s ∧
      Event.context_get (trans_context_get w s X none).1 ∈
        (trans_event_report_fixed w context_get s P X rf).trace ∧
      ((∀ d ∈ s.devices, d.lladdr ≠ X) →
        Event.context_get 0 ∈ (trans_event_report_fixed w context_get s P X rf).trace) ∧
      ((trans_event_report_fixed w context_get s P X rf).ret = 1 ↔
        ∃ ctx, context_get (trans_context_get w s X none).1 = some ctx) ∧
      (∀ ctx, context_get (trans_context_get w s X none).1 = some ctx →
        (trans_event_report_fixed w context_get s P X rf).trace.filter Event.isDataUpdate =
          [.mds_event_report_dynamic_data_update_fixed ctx rf]) ∧
      (context_get (trans_context_get w s X none).1 = none →
        (trans_event_report_fixed w context_get s P X rf).ret = 0 ∧
        (trans_event_report_fixed w context_get s P X rf).trace.filter Event.isDataUpdate =
          [])) ∧
    ((trans_event_report_var w context_get s P X rv).state = s ∧
      Event.context_get (trans_context_get w s X none).1 ∈
        (trans_event_report_var w context_get s P X rv).trace ∧
      ((∀ d ∈ s.devices, d.lladdr ≠ X) →
        Event.context_get 0 ∈ (trans_event_report_var w context_get s P X rv).trace) ∧
      ((trans_event_report_var w context_get s P X rv).ret = 1 ↔
        ∃ ctx, context_get (trans_context_get w s X none).1 = some ctx) ∧
      (∀ ctx, context_get (trans_context_get w s X none).1 = some ctx →
        (trans_event_report_var w context_get s P X rv).trace.filter Event.isDataUpdate =
          [.mds_event_report_dynamic_data_update_var ctx rv]) ∧
      (context_get (trans_context_get w s X none).1 = none →
        (trans_event_report_var w context_get s P X rv).ret = 0 ∧
        (trans_event_report_var w context_get s P X rv).trace.filter Event.isDataUpdate =
          [])) := by
  have hs := trans_context_get_null_state w s X
  have h0 : (∀ d ∈ s.devices, d.lladdr ≠ X) → (trans_context_get w s X none).1 = 0 := by
    intro h
    rw [trans_context_get_lookup ((get_device_by_addr_eq_none_iff s X).2 h)]
  constructor
  · cases h : context_get (trans_context_get w s X none).1 with
    | none =>
      rw [trans_event_report_fixed_none P rf h]
      refine ⟨hs, by simp, fun hx => ?_, by simp, fun ctx hctx => by simp at hctx, fun _ => ?_⟩
      · rw [h0 hx]; simp
      · refine ⟨rfl, ?_⟩
        by_cases hc : (trans_context_get w s X none).1 = 0 <;> simp [hc, Event.isDataUpdate]
    | some ctx =>
      rw [trans_event_report_fixed_some P rf h]
      refine ⟨hs, by simp, fun hx => ?_, by simp, fun ctx2 hctx => ?_, fun hn => by simp at hn⟩
      · rw [h0 hx]; simp
      · cases hctx
        by_cases hc : (trans_context_get w s X none).1 = 0 <;> simp [hc, Event.isDataUpdate]
  · cases h : context_get (trans_context_get w s X none).1 with
    | none =>
      rw [trans_event_report_var_none P rv h]
      refine ⟨hs, by simp, fun hx => ?_, by simp, fun ctx hctx => by simp at hctx, fun _ => ?_⟩
      · rw [h0 hx]; simp
      · refine ⟨rfl, ?_⟩
        by_cases hc : (trans_context_get w s X none).1 = 0 <;> simp [hc, Event.isDataUpdate]
    | some ctx =>
      rw [trans_event_report_var_some P rv h]
      refine ⟨hs, by simp, fun hx => ?_, by simp, fun ctx2 hctx => ?_, fun hn => by simp at hn⟩
      · rw [h0 hx]; simp
      · cases hctx
        by_cases hc : (trans_context_get w s X none).1 = 0 <;> simp [hc, Event.isDataUpdate]

/-! ## The tick handler -/

theorem int_wrap_of_range {x : Int} (hlo : INT_MIN ≤ x) (hhi : x ≤ INT_MAX) :
    int_wrap x = x := by
  unfold INT_MIN at hlo
  unfold INT_MAX at hhi
  unfold int_wrap
  omega

theorem sigalrm_send {st : AgentState} (h : 1 < st.alarms) :
    (sigalrm st).1 = [.agent_send_data st.CONTEXT_ID, .alarm 3] := by
  simp [sigalrm, h]

theorem sigalrm_disassociate {st : AgentState} (h : st.alarms = 1) :
    (sigalrm st).1 = [.agent_disassociate st.CONTEXT_ID, .alarm 3] := by
  simp [sigalrm, h]

theorem sigalrm_disconnect {st : AgentState} (h : st.alarms ≤ 0) :
    (sigalrm st).1 = [.agent_disconnect st.CONTEXT_ID] := by
  have h1 : ¬ st.alarms > 1 := by omega
  have h2 : ¬ st.alarms = 1 := by omega
  simp [sigalrm, h1, h2]

theorem sigalrm_state (st : AgentState) :
    (sigalrm st).2 = { CONTEXT_ID := st.CONTEXT_ID, alarms := int_wrap (st.alarms - 1) } :=
  rfl

/-- Inside the range of `int` the decrement is exact. -/
theorem sigalrm_alarms {st : AgentState} (hlo : INT_MIN < st.alarms)
    (hhi : st.alarms ≤ INT_MAX) : (sigalrm st).2.alarms = st.alarms - 1 := by
  rw [sigalrm_state]
  apply int_wrap_of_range
  · unfold INT_MIN at hlo ⊢; omega
  · unfold INT_MAX at hhi ⊢; omega

theorem lifecycle_send (fuel : Nat) {st : AgentState} (h : 1 < st.alarms) :
    lifecycle (fuel + 1) st =
      [.agent_send_data st.CONTEXT_ID, .alarm 3] :: lifecycle fuel (sigalrm st).2 := by
  simp [lifecycle, sigalrm_send h, rearmed]

theorem lifecycle_disassociate (fuel : Nat) {st : AgentState} (h : st.alarms = 1) :
    lifecycle (fuel + 1) st =
      [.agent_disassociate st.CONTEXT_ID, .alarm 3] :: lifecycle fuel (sigalrm st).2 := by
  simp [lifecycle, sigalrm_disassociate h, rearmed]

theorem lifecycle_disconnect (fuel : Nat) {st : AgentState} (h : st.alarms ≤ 0) :
    lifecycle (fuel + 1) st = [[.agent_disconnect st.CONTEXT_ID]] := by
  simp [lifecycle, sigalrm_disconnect h, rearmed]

/-- The run from a budget of `m + 1`, followed for at least `m + 2` ticks. -/
theorem lifecycle_budget (id : ContextId) (m : Nat) :
    ∀ fuel : Nat, m + 2 ≤ fuel → ((m : Int) + 1 ≤ INT_MAX) →
      lifecycle fuel { CONTEXT_ID := id, alarms := (m : Int) + 1 } =
        List.replicate m [.agent_send_data id, .alarm 3] ++
          [[.agent_disassociate id, .alarm 3], [.agent_disconnect id]] := by
  induction m with
  | zero =>
    intro fuel hfuel _
    obtain ⟨f, rfl⟩ : ∃ f, fuel = f + 2 := ⟨fuel - 2, by omega⟩
    have h1 : ({ CONTEXT_ID := id, alarms := ((0 : Nat) : Int) + 1 } : AgentState).alarms = 1 := by
      simp
    rw [lifecycle_disassociate (f + 1) h1, sigalrm_state]
    have h0 : ({ CONTEXT_ID := id, alarms := int_wrap (((0 : Nat) : Int) + 1 - 1) } :
        AgentState).alarms ≤ 0 := by
      show int_wrap (((0 : Nat) : Int) + 1 - 1) ≤ 0
      decide
    rw [lifecycle_disconnect f h0]
    rfl
  | succ m ih =>
    intro fuel hfuel hmax
    obtain ⟨f, rfl⟩ : ∃ f, fuel = f + 1 := ⟨fuel - 1, by omega⟩
    have hgt : 1 < ({ CONTEXT_ID := id, alarms := ((m + 1 : Nat) : Int) + 1 } :
        AgentState).alarms := by
      show (1 : Int) < ((m + 1 : Nat) : Int) + 1
      omega
    rw [lifecycle_send f hgt, sigalrm_state]
    have hw : int_wrap (((m + 1 : Nat) : Int) + 1 - 1) = (m : Int) + 1 := by
      rw [int_wrap_of_range]
      · push_cast; omega
      · unfold INT_MIN; push_cast; omega
      · push_cast at hmax ⊢; omega
    show _ :: lifecycle f { CONTEXT_ID := id, alarms := int_wrap (((m + 1 : Nat) : Int) + 1 - 1) }
      = _
    rw [hw, ih f (by omega) (by push_cast at hmax; omega), List.replicate_succ]
    rfl

theorem ticks_alarms (k : Nat) :
    ∀ st : AgentState, st.alarms ≤ INT_MAX → INT_MIN ≤ st.alarms - k →
      (ticks k st).2.alarms = st.alarms - k := by
  induction k with
  | zero => intro st _ _; simp [ticks]
  | succ k ih =>
    intro st hhi hlo
    have hstep : (sigalrm st).2.alarms = st.alarms - 1 :=
      sigalrm_alarms (by push_cast at hlo; omega) hhi
    show (ticks k (sigalrm st).2).2.alarms = _
    rw [ih (sigalrm st).2 (by rw [hstep]; omega) (by rw [hstep]; push_cast at hlo; omega),
      hstep]
    push_cast
    omega

theorem ticks_no_send (k : Nat) :
    ∀ st : AgentState, st.alarms ≤ 1 → INT_MIN ≤ st.alarms - k →
      ∀ id, AgentCall.agent_send_data id ∉ (ticks k st).1 := by
  induction k with
  | zero => intro st _ _ id; simp [ticks]
  | succ k ih =>
    intro st h1 hlo id hmem
    have hhi : st.alarms ≤ INT_MAX := by unfold INT_MAX; omega
    have hstep : (sigalrm st).2.alarms = st.alarms - 1 :=
      sigalrm_alarms (by push_cast at hlo; omega) hhi
    have hmem' : AgentCall.agent_send_data id ∈ (sigalrm st).1 ++ (ticks k (sigalrm st).2).1 :=
      hmem
    rcases List.mem_append.1 hmem' with hm | hm
    · by_cases h : st.alarms = 1
      · rw [sigalrm_disassociate h] at hm
        simp at hm
      · rw [sigalrm_disconnect (by omega)] at hm
        simp at hm
    · exact ih (sigalrm st).2 (by rw [hstep]; omega)
        (by rw [hstep]; push_cast at hlo; omega) id hm

/-- C11, lifecycle cadence: for every budget `n` with `1 ≤ n` that an `int`
holds, the run of the timer from `alarms = n`, followed for `n + 1` ticks or
any number more, is `n - 1` ticks that send data and arm the timer, one tick
that disassociates and arms the timer, and one tick that disconnects and does
not: `n + 1` ticks, the last the only one that leaves the timer unarmed. For
the budget 4 of sample_agent.c this is send-data three times, disassociate,
disconnect. -/
theorem lifecycle_cadence (id : ContextId) (n fuel : Nat) (hn : 1 ≤ n)
    (hmax : (n : Int) ≤ INT_MAX) (hfuel : n + 1 ≤ fuel) :
    lifecycle fuel { CONTEXT_ID := id, alarms := (n : Int) } =
      List.replicate (n - 1) [.agent_send_data id, .alarm 3] ++
        [[.agent_disassociate id, .alarm 3], [.agent_disconnect id]] ∧
    (lifecycle fuel { CONTEXT_ID := id, alarms := (n : Int) }).length = n + 1 ∧
    (lifecycle fuel { CONTEXT_ID := id, alarms := (n : Int) }).map rearmed =
      List.replicate n true ++ [false] := by
  obtain ⟨m, rfl⟩ : ∃ m, n = m + 1 := ⟨n - 1, by omega⟩
  have h := lifecycle_budget id m fuel (by omega) (by push_cast at hmax; exact hmax)
  have hcast : ((m + 1 : Nat) : Int) = (m : Int) + 1 := by push_cast; rfl
  rw [hcast, h]
  refine ⟨by simp, by simp, ?_⟩
  simp only [List.map_append, List.map_replicate, List.map_cons, List.map_nil]
  have e1 : rearmed [AgentCall.agent_send_data id, AgentCall.alarm 3] = true := by
    simp [rearmed]
  have e2 : rearmed [AgentCall.agent_disassociate id, AgentCall.alarm 3] = true := by
    simp [rearmed]
  have e3 : rearmed [AgentCall.agent_disconnect id] = false := by simp [rearmed]
  rw [e1, e2, e3, List.replicate_succ']
  simp

/-- C11 at the statics of sample_agent.c as initialised (`alarms = 4`,
`CONTEXT_ID = 0`), followed for 5 ticks. -/
theorem lifecycle_cadence_witness :
    1 ≤ 4 ∧ ((4 : Nat) : Int) ≤ INT_MAX ∧ 4 + 1 ≤ 5 ∧
    AgentState.init = { CONTEXT_ID := 0, alarms := ((4 : Nat) : Int) } ∧
    (lifecycle 5 { CONTEXT_ID := 0, alarms := ((4 : Nat) : Int) } =
      List.replicate (4 - 1) [.agent_send_data 0, .alarm 3] ++
        [[.agent_disassociate 0, .alarm 3], [.agent_disconnect 0]] ∧
    (lifecycle 5 { CONTEXT_ID := 0, alarms := ((4 : Nat) : Int) }).length = 4 + 1 ∧
    (lifecycle 5 { CONTEXT_ID := 0, alarms := ((4 : Nat) : Int) }).map rearmed =
      List.replicate 4 true ++ [false]) :=
  ⟨by decide, by decide, by decide, by decide,
    lifecycle_cadence 0 4 5 (by decide) (by decide) (by decide)⟩

/-- C12, tick step function: for every counter value `c ≥ 0` of an `int`, one
call of `sigalrm` sends data and arms the timer when `c > 1`, disassociates and
arms the timer when `c = 1`, disconnects and does not arm the timer when
`c = 0`, and in each of the three branches leaves the counter at `c - 1` (and
`CONTEXT_ID` as it was). -/
theorem sigalrm_step (st : AgentState) (h0 : 0 ≤ st.alarms) (hmax : st.alarms ≤ INT_MAX) :
    (1 < st.alarms →
      (sigalrm st).1 = [.agent_send_data st.CONTEXT_ID, .alarm 3] ∧
      rearmed (sigalrm st).1 = true) ∧
    (st.alarms = 1 →
      (sigalrm st).1 = [.agent_disassociate st.CONTEXT_ID, .alarm 3] ∧
      rearmed (sigalrm st).1 = true) ∧
    (st.alarms = 0 →
      (sigalrm st).1 = [.agent_disconnect st.CONTEXT_ID] ∧
      rearmed (sigalrm st).1 = false) ∧
    (sigalrm st).2.alarms = st.alarms - 1 ∧
    (sigalrm st).2.CONTEXT_ID = st.CONTEXT_ID := by
  refine ⟨fun h => ?_, fun h => ?_, fun h => ?_, ?_, rfl⟩
  · rw [sigalrm_send h]; exact ⟨rfl, by simp [rearmed]⟩
  · rw [sigalrm_disassociate h]; exact ⟨rfl, by simp [rearmed]⟩
  · rw [sigalrm_disconnect (le_of_eq h)]; exact ⟨rfl, by simp [rearmed]⟩
  · exact sigalrm_alarms (by unfold INT_MIN; omega) hmax

/-- C12 at the statics as initialised: the counter 4 sends data and goes to 3. -/
theorem sigalrm_step_witness :
    (0 : Int) ≤ AgentState.init.alarms ∧ AgentState.init.alarms ≤ INT_MAX ∧
    (sigalrm AgentState.init).1 = [.agent_send_data 0, .alarm 3] ∧
    (sigalrm AgentState.init).2.alarms = 3 :=
  ⟨by decide, by decide,
    ((sigalrm_step AgentState.init (by decide) (by decide)).1 (by decide)).1,
    (sigalrm_step AgentState.init (by decide) (by decide)).2.2.2.1⟩

/-- C17 (as amended), direct tick work: for every counter value the handler
`sigalrm` itself makes exactly one protocol-core call before it returns
(`agent_send_data` above 1, `agent_disassociate` at 1, `agent_disconnect`
otherwise); it records no pending action, the decrement of `alarms` being its
only effect on the statics. -/
theorem sigalrm_calls_directly (st : AgentState) :
    (sigalrm st).1.filter AgentCall.isAgentOperation =
      [if 1 < st.alarms then .agent_send_data st.CONTEXT_ID
       else if st.alarms = 1 then .agent_disassociate st.CONTEXT_ID
       else .agent_disconnect st.CONTEXT_ID] ∧
    (sigalrm st).2 =
      { CONTEXT_ID := st.CONTEXT_ID, alarms := int_wrap (st.alarms - 1) } := by
  refine ⟨?_, rfl⟩
  by_cases h : 1 < st.alarms
  · rw [sigalrm_send h, if_pos h]; rfl
  · by_cases h1 : st.alarms = 1
    · rw [sigalrm_disassociate h1, if_neg h, if_pos h1]; rfl
    · rw [sigalrm_disconnect (by omega), if_neg h, if_neg h1]; rfl

/-- C17 as stated fails: with the statics as initialised the handler itself
calls `agent_send_data(0)`. -/
theorem sigalrm_sends_in_handler :
    AgentCall.agent_send_data 0 ∈ (sigalrm AgentState.init).1 ∧
    ((sigalrm AgentState.init).1.filter AgentCall.isAgentOperation).length = 1 := by
  decide

/-- C19 (as amended), after termination: for every counter value `c ≤ 0` of an
`int` other than `INT_MIN`, a call of `sigalrm` makes the disconnect call only,
does not arm the timer and leaves the counter at `c - 1`; over any `k` ticks in
a row that do not take the counter below `INT_MIN`, the counter goes down by
one per tick, and from a counter at or below 1 none of them sends data. -/
theorem sigalrm_after_termination (st : AgentState) (k : Nat) (hhi : st.alarms ≤ INT_MAX)
    (hlo : INT_MIN ≤ st.alarms - k) :
    (st.alarms ≤ 0 → INT_MIN < st.alarms →
      sigalrm st =
        ([.agent_disconnect st.CONTEXT_ID],
          { CONTEXT_ID := st.CONTEXT_ID, alarms := st.alarms - 1 }) ∧
      rearmed (sigalrm st).1 = false) ∧
    (st.alarms ≤ 1 → ∀ id, AgentCall.agent_send_data id ∉ (ticks k st).1) ∧
    (ticks k st).2.alarms = st.alarms - k := by
  refine ⟨fun h0 hmin => ?_, fun h1 => ticks_no_send k st h1 hlo, ticks_alarms k st hhi hlo⟩
  have hcalls := sigalrm_disconnect h0
  have hal := sigalrm_alarms hmin hhi
  refine ⟨?_, by rw [hcalls]; simp [rearmed]⟩
  rw [Prod.ext_iff]
  refine ⟨hcalls, ?_⟩
  rw [sigalrm_state] at hal ⊢
  simp only at hal
  rw [hal]

/-- C19 at the counter left by the disconnect tick of the sample run, -1, over
three more ticks. -/
theorem sigalrm_after_termination_witness :
    (-1 : Int) ≤ INT_MAX ∧ INT_MIN ≤ (-1 : Int) - ((3 : Nat) : Int) ∧
    sigalrm { CONTEXT_ID := 0, alarms := -1 } =
      ([.agent_disconnect 0], { CONTEXT_ID := 0, alarms := -1 - 1 }) ∧
    (∀ id, AgentCall.agent_send_data id ∉ (ticks 3 { CONTEXT_ID := 0, alarms := -1 }).1) ∧
    (ticks 3 { CONTEXT_ID := 0, alarms := -1 }).2.alarms = -1 - ((3 : Nat) : Int) :=
  ⟨by decide, by decide,
    ((sigalrm_after_termination { CONTEXT_ID := 0, alarms := -1 } 3 (by decide)
      (by decide)).1 (by decide) (by decide)).1,
    (sigalrm_after_termination { CONTEXT_ID := 0, alarms := -1 } 3 (by decide)
      (by decide)).2.1 (by decide),
    (sigalrm_after_termination { CONTEXT_ID := 0, alarms := -1 } 3 (by decide)
      (by decide)).2.2⟩

/-- C19 as stated fails at the least `int`: from `alarms = INT_MIN` a call of
`sigalrm` leaves the counter at `INT_MAX`, not one lower, and the tick after it
sends data. -/
theorem sigalrm_wraps_at_INT_MIN :
    INT_MIN ≤ 0 ∧
    (sigalrm { CONTEXT_ID := 0, alarms := INT_MIN }).2.alarms = INT_MAX ∧
    (sigalrm { CONTEXT_ID := 0, alarms := INT_MIN }).2.alarms ≠ INT_MIN - 1 ∧
    (ticks 2 { CONTEXT_ID := 0, alarms := INT_MIN }).1 =
      [.agent_disconnect 0, .agent_send_data 0, .alarm 3] := by
  decide

/-! ## The ids in a reachable registry -/

theorem context_of_mem_Inv {w : Nat} {s : TransState} (h : Inv w s) {d : TransDevice}
    (hd : d ∈ s.devices) : ∃ i, i < s.devices.length ∧ d.context = (991 + i) % 2 ^ w := by
  have hmem : d.context ∈ s.devices.map (fun d => d.context) := List.mem_map.2 ⟨d, hd, rfl⟩
  rw [h.2.1] at hmem
  obtain ⟨i, hi, hic⟩ := List.mem_map.1 hmem
  exact ⟨i, List.mem_range.1 hi, hic.symm⟩

theorem length_run (w : Nat) (calls : List (String × Option TransPlugin)) :
    (run w calls).devices.length = allocations w (TransState.init w) calls := by
  have h := length_runFrom w calls (TransState.init w)
  unfold run
  rw [h]
  show 0 + _ = _
  rw [Nat.zero_add]

/-- In a registry reached from the initial one every id of an entry is
`991 + i` modulo `2 ^ w` for an `i` below the number of allocations. -/
theorem context_of_mem_run (w : Nat) (calls : List (String × Option TransPlugin))
    {d : TransDevice} (hd : d ∈ (run w calls).devices) :
    ∃ i, i < allocations w (TransState.init w) calls ∧ d.context = (991 + i) % 2 ^ w := by
  obtain ⟨i, hi, hc⟩ := context_of_mem_Inv (Inv_run w calls) hd
  rw [length_run] at hi
  exact ⟨i, hi, hc⟩

/-- The id a call returns in such a registry, whatever its arguments: 0 for a
lookup that finds nothing, and otherwise `991 + i` modulo `2 ^ w` for an `i` up
to the number of allocations made before. -/
theorem trans_context_get_id_form (w : Nat) (calls : List (String × Option TransPlugin))
    (a : String) (q : Option TransPlugin) :
    (q = none ∧ get_device_by_addr (run w calls) a = none ∧
        (trans_context_get w (run w calls) a q).1 = 0) ∨
      ∃ i, i ≤ allocations w (TransState.init w) calls ∧
        (trans_context_get w (run w calls) a q).1 = (991 + i) % 2 ^ w := by
  cases h : get_device_by_addr (run w calls) a with
  | some d =>
    right
    obtain ⟨i, hi, hc⟩ := context_of_mem_run w calls (get_device_by_addr_some h).1
    rw [trans_context_get_known q h]
    exact ⟨i, Nat.le_of_lt hi, hc⟩
  | none =>
    cases q with
    | none =>
      left
      rw [trans_context_get_lookup h]
      exact ⟨rfl, rfl, rfl⟩
    | some p =>
      right
      exact ⟨_, Nat.le_refl _, trans_context_get_fresh_id w calls a p h⟩

/-- The id handed out after `n` allocations for `n` fresh addresses. -/
theorem freshCalls_next_id (w : Nat) (p : TransPlugin) (n : Nat) :
    allocations w (TransState.init w) (freshCalls p 0 n) = n ∧
    (∀ d ∈ (run w (freshCalls p 0 n)).devices, d.lladdr ≠ addrOf n) ∧
    (trans_context_get w (run w (freshCalls p 0 n)) (addrOf n) (some p)).1 =
      (991 + n) % 2 ^ w := by
  obtain ⟨halloc, hlen⟩ := allocations_freshCalls w p n 0 (TransState.init w)
    (by intro d hd; simp [TransState.init] at hd)
  have hnew : ∀ d ∈ (run w (freshCalls p 0 n)).devices, d.lladdr ≠ addrOf n := by
    intro d hd heq
    have := hlen d hd
    rw [heq, length_addrOf, Nat.zero_add] at this
    exact Nat.lt_irrefl _ this
  refine ⟨halloc, hnew, ?_⟩
  rw [trans_context_get_fresh_id w _ _ p ((get_device_by_addr_eq_none_iff _ _).2 hnew), halloc]

theorem tcp_mode_CONTEXT_ID (w : Nat) (st : AgentState) (hw : 6024 < 2 ^ w) :
    (tcp_mode w st).2.CONTEXT_ID = 6024 := by
  have h : (6024 : Int) < 2 ^ w := by exact_mod_cast hw
  show ((6024 : Int) % 2 ^ w).toNat = 6024
  rw [Int.emod_eq_of_lt (by decide) h]
  rfl

theorem trans_context_get_extends (w : Nat) (s : TransState) (a : String)
    (q : Option TransPlugin) : s.devices <+: (trans_context_get w s a q).2.devices := by
  cases h : get_device_by_addr s a with
  | some d => rw [trans_context_get_known q h]
  | none =>
    cases q with
    | none => rw [trans_context_get_lookup h]
    | some p =>
      rw [trans_context_get_create p h]
      exact List.prefix_append _ _

/-! ## The association pipeline, the allocation sources, the append-only list -/

/-- C13, the association pipeline: for every registry, plugin `P` and address
`X`, `trans_connected` returns 1 exactly when the protocol core returns a
context struct for the id resolved for `X`; it then calls accept-association and
perform-configuration, once each and in this order, with that struct and the
payloads it was given, after the connect indication. When the struct is absent
it returns 0 and calls neither. -/
theorem trans_connected_pipeline (w : Nat) (context_get : ContextId → Option Context)
    (s : TransState) (P : TransPlugin) (X : String) (assoc_info : PhdAssociationInformation)
    (config : ConfigReport) :
    ((trans_connected w context_get s P X assoc_info config).ret = 1 ↔
      ∃ ctx, context_get (trans_context_get w s X (some P)).1 = some ctx) ∧
    (∀ ctx, context_get (trans_context_get w s X (some P)).1 = some ctx →
      (trans_connected w context_get s P X assoc_info config).trace.filter
          (fun e => e.isIndication || e.isPipeline) =
        [.communication_transport_connect_indication (trans_context_get w s X (some P)).1,
         .association_accept_data_protocol_20601_in ctx assoc_info,
         .configuring_perform_configuration_in ctx config]) ∧
    (context_get (trans_context_get w s X (some P)).1 = none →
      (trans_connected w context_get s P X assoc_info config).ret = 0 ∧
      (trans_connected w context_get s P X assoc_info config).trace.filter
        Event.isPipeline = []) := by
  cases h : context_get (trans_context_get w s X (some P)).1 with
  | none =>
    rw [trans_connected_none assoc_info config h]
    refine ⟨by simp, fun ctx hctx => by simp at hctx, fun _ => ⟨rfl, ?_⟩⟩
    simp [Event.isPipeline]
  | some ctx =>
    rw [trans_connected_some assoc_info config h]
    refine ⟨by simp, fun ctx2 hctx => ?_, fun hn => by simp at hn⟩
    cases hctx
    simp [Event.isPipeline, Event.isIndication]

/-- C14 (as amended), the two allocation sources: the id `tcp_mode` sets from
its port number is 6024, above the base 991. Starting from the empty registry,
while fewer than 5033 ids have been allocated, every id `trans_context_get`
returns for a non-null plugin lies at or above 991 and below 6024, so it is not
the id of the TCP mode. -/
theorem allocation_sources (w : Nat) (calls : List (String × Option TransPlugin))
    (a : String) (p : TransPlugin) (st : AgentState) (hw : 6024 < 2 ^ w)
    (hfew : allocations w (TransState.init w) calls < 5033) :
    (tcp_mode w st).2.CONTEXT_ID = 6024 ∧
    991 ≤ (trans_context_get w (run w calls) a (some p)).1 ∧
    (trans_context_get w (run w calls) a (some p)).1 < 6024 ∧
    (trans_context_get w (run w calls) a (some p)).1 ≠ (tcp_mode w st).2.CONTEXT_ID := by
  have htcp := tcp_mode_CONTEXT_ID w st hw
  rcases trans_context_get_id_form w calls a (some p) with ⟨hq, _⟩ | ⟨i, hi, hid⟩
  · exact Option.noConfusion hq
  · have hlt : 991 + i < 2 ^ w := by omega
    rw [Nat.mod_eq_of_lt hlt] at hid
    rw [htcp, hid]
    show (6024 : Nat) = 6024 ∧ (991 : Nat) ≤ 991 + i ∧ (991 : Nat) + i < 6024 ∧
      (991 : Nat) + i ≠ 6024
    omega

/-- C14 at a concrete run with 64-bit ids: "A" registered, then "B" resolved. -/
theorem allocation_sources_witness :
    6024 < 2 ^ 64 ∧ allocations 64 (TransState.init 64) [("A", some ⟨1⟩)] < 5033 ∧
    (tcp_mode 64 AgentState.init).2.CONTEXT_ID = 6024 ∧
    991 ≤ (trans_context_get 64 (run 64 [("A", some ⟨1⟩)]) "B" (some ⟨1⟩)).1 ∧
    (trans_context_get 64 (run 64 [("A", some ⟨1⟩)]) "B" (some ⟨1⟩)).1 < 6024 ∧
    (trans_context_get 64 (run 64 [("A", some ⟨1⟩)]) "B" (some ⟨1⟩)).1 ≠
      (tcp_mode 64 AgentState.init).2.CONTEXT_ID :=
  ⟨by decide, by decide,
    allocation_sources 64 [("A", some ⟨1⟩)] "B" ⟨1⟩ AgentState.init (by decide) (by decide)⟩

/-- C14 as stated fails: the id of the TCP mode, 6024, is not below 991, and
with 64-bit ids the registry hands out the same 6024 to the address that
follows 5033 allocations. -/
theorem allocation_sources_collide :
    (tcp_mode 64 AgentState.init).2.CONTEXT_ID = 6024 ∧
    ¬ (tcp_mode 64 AgentState.init).2.CONTEXT_ID < 991 ∧
    allocations 64 (TransState.init 64) (freshCalls ⟨0⟩ 0 5033) = 5033 ∧
    (∀ d ∈ (run 64 (freshCalls ⟨0⟩ 0 5033)).devices, d.lladdr ≠ addrOf 5033) ∧
    (trans_context_get 64 (run 64 (freshCalls ⟨0⟩ 0 5033)) (addrOf 5033) (some ⟨0⟩)).1 =
      (tcp_mode 64 AgentState.init).2.CONTEXT_ID := by
  have htcp := tcp_mode_CONTEXT_ID 64 AgentState.init (by norm_num)
  have h := freshCalls_next_id 64 ⟨0⟩ 5033
  rw [htcp]
  refine ⟨rfl, by decide, h.1, h.2.1, ?_⟩
  rw [h.2.2]
  norm_num

/-- C15, append-only registry: for every registry and every call of
`trans_context_get`, `trans_connected`, `trans_event_report_fixed`,
`trans_event_report_var`, `trans_disconnected` and `trans_force_disconnect`,
the device list before the call is an initial segment of the list after it:
every entry is still there, unchanged and in the same order. The two report
entry points, `trans_disconnected` and `trans_force_disconnect` leave the device
list and the allocation counter as they were. -/
theorem registry_append_only (w : Nat) (context_get : ContextId → Option Context)
    (element : Option TransDevice) (s : TransState) (P : TransPlugin) (X : String)
    (q : Option TransPlugin) (assoc_info : PhdAssociationInformation) (config : ConfigReport)
    (rf : ScanReportInfoFixed) (rv : ScanReportInfoVar) (id : ContextId) :
    s.devices <+: (trans_context_get w s X q).2.devices ∧
    s.devices <+: (trans_connected w context_get s P X assoc_info config).state.devices ∧
    (trans_event_report_fixed w context_get s P X rf).state = s ∧
    (trans_event_report_var w context_get s P X rv).state = s ∧
    ((trans_disconnected w s P X).state.devices = s.devices ∧
      (trans_disconnected w s P X).state.new_context = s.new_context) ∧
    (trans_force_disconnect element s id).state = s := by
  refine ⟨trans_context_get_extends w s X q, ?_, ?_, ?_, ?_,
    trans_force_disconnect_state element s id⟩
  · rw [trans_connected_state]
    exact trans_context_get_extends w s X (some P)
  · cases h : context_get (trans_context_get w s X none).1 with
    | none => rw [trans_event_report_fixed_none P rf h]; exact trans_context_get_null_state w s X
    | some ctx =>
      rw [trans_event_report_fixed_some P rf h]; exact trans_context_get_null_state w s X
  · cases h : context_get (trans_context_get w s X none).1 with
    | none => rw [trans_event_report_var_none P rv h]; exact trans_context_get_null_state w s X
    | some ctx =>
      rw [trans_event_report_var_some P rv h]; exact trans_context_get_null_state w s X
  · rw [trans_disconnected_state]
    exact ⟨rfl, rfl⟩

/-- C16, at the registry that holds "A" with id 991 under plugin 1 and "B" with
id 992 under plugin 2 (both created by `trans_context_get`): whatever the
uninitialised local of `search_by_context` is, a pointer to no object included,
`trans_force_disconnect(992)` never calls the force-disconnect of plugin 2, the
owner of the entry with context 992, neither with "B" nor with any other
address. -/
theorem trans_force_disconnect_known_misses (element : Option TransDevice) :
    (⟨"B", 992, ⟨2⟩⟩ : TransDevice) ∈ (run 64 [("A", some ⟨1⟩), ("B", some ⟨2⟩)]).devices ∧
    ∀ lladdr : String, Event.force_disconnect ⟨2⟩ lladdr ∉
      (trans_force_disconnect element (run 64 [("A", some ⟨1⟩), ("B", some ⟨2⟩)]) 992).trace := by
  have hrun : run 64 [("A", some ⟨1⟩), ("B", some ⟨2⟩)] =
      ⟨[⟨"A", 991, ⟨1⟩⟩, ⟨"B", 992, ⟨2⟩⟩], 993⟩ := by decide
  rw [hrun]
  refine ⟨by decide, fun lladdr => ?_⟩
  unfold trans_force_disconnect
  rw [get_device_by_context_eq]
  cases element with
  | none => simp
  | some e =>
    by_cases h : e.context = 992
    · simp [h]
    · simp [h]

/-- C18, the sentinel is never handed out: starting from the empty registry,
after any sequence of `trans_context_get` calls of which fewer than
`2 ^ w - 991` allocated an id (the counter has not wrapped), a call with a
non-null plugin returns an id that is at least 991, hence not 0, and a call that
returns 0 had a NULL plugin and an address without an entry. -/
theorem sentinel_never_allocated (w : Nat) (calls : List (String × Option TransPlugin))
    (a : String) (q : Option TransPlugin)
    (hcap : 991 + allocations w (TransState.init w) calls < 2 ^ w) :
    (∀ p, q = some p →
      991 ≤ (trans_context_get w (run w calls) a q).1 ∧
      (trans_context_get w (run w calls) a q).1 ≠ 0) ∧
    ((trans_context_get w (run w calls) a q).1 = 0 →
      q = none ∧ ∀ d ∈ (run w calls).devices, d.lladdr ≠ a) := by
  rcases trans_context_get_id_form w calls a q with ⟨hq, hnone, _⟩ | ⟨i, hi, hid⟩
  · refine ⟨fun p hp => ?_, fun _ => ⟨hq, (get_device_by_addr_eq_none_iff _ _).1 hnone⟩⟩
    rw [hq] at hp
    exact Option.noConfusion hp
  · have hlt : 991 + i < 2 ^ w := by omega
    rw [Nat.mod_eq_of_lt hlt] at hid
    refine ⟨fun p _ => ?_, fun h0 => ?_⟩
    · rw [hid]
      show (991 : Nat) ≤ 991 + i ∧ (991 : Nat) + i ≠ 0
      omega
    · rw [hid] at h0
      have h0' : (991 : Nat) + i = 0 := h0
      omega

/-- C18 at a concrete run with 64-bit ids: "A" registered, "B" looked up, then
"C" resolved with a plugin; the id is 992. -/
theorem sentinel_never_allocated_witness :
    991 + allocations 64 (TransState.init 64) [("A", some ⟨1⟩), ("B", none)] < 2 ^ 64 ∧
    (991 ≤ (trans_context_get 64 (run 64 [("A", some ⟨1⟩), ("B", none)]) "C" (some ⟨1⟩)).1 ∧
      (trans_context_get 64 (run 64 [("A", some ⟨1⟩), ("B", none)]) "C" (some ⟨1⟩)).1 ≠ 0) ∧
    (trans_context_get 64 (run 64 [("A", some ⟨1⟩), ("B", none)]) "C" (some ⟨1⟩)).1 = 992 :=
  ⟨by decide,
    (sentinel_never_allocated 64 [("A", some ⟨1⟩), ("B", none)] "C" (some ⟨1⟩)
      (by decide)).1 ⟨1⟩ rfl,
    by decide⟩

end Antidote
